import Mathlib

/-!
Verification of the daily-briefing pipeline (`daily_briefing_rss.py`).

The script fetches RSS feeds and the Hugging Face daily-papers listing,
summarizes the aggregated text with a generative backend, renders the
Markdown report as styled HTML, and emails it.  External effects
(feed parsing, HTTP, the backend call, the SMTP session, Markdown
conversion, the clock) are passed in as explicit parameters, so every
function below is a pure shallow embedding of the corresponding Python
function, faithful to its control flow and string manipulation.
-/

namespace DailyBriefing

/-- Python truthiness of an optional string: `not v` holds when the
variable is unset (`None`) or the empty string. -/
def pyFalsy (v : Option String) : Bool := v.getD "" == ""

/-- Python's `needle in hay` substring test on lists of characters:
true iff `needle` occurs contiguously anywhere in `hay`. -/
def containsSub (needle : List Char) : List Char → Bool
  | [] => needle.isEmpty
  | c :: t => needle.isPrefixOf (c :: t) || containsSub needle t

/-- Python's `needle in hay` on strings. -/
def strIn (needle hay : String) : Bool := containsSub needle.data hay.data

/-- One parsed feed entry, as consumed by `fetch_rss_data`: `entry.get`
on a missing key yields the supplied default, modeled by `Option`. -/
structure Entry where
  title : Option String
  summary : Option String
  link : Option String

/-- A parsed feed: `feed.feed.title` (optional) and `feed.entries`. -/
structure Feed where
  feedTitle : Option String
  entries : List Entry

/-- `entry.get('title', 'No Title')`. -/
def entryTitle (e : Entry) : String := e.title.getD "No Title"

/-- `entry.get('summary', '')[:200].replace('<p>', '').replace('</p>', '')`. -/
def entrySummary (e : Entry) : String :=
  (((e.summary.getD "").take 200).replace "<p>" "").replace "</p>" ""

/-- `entry.get('link', '')`. -/
def entryLink (e : Entry) : String := e.link.getD ""

/-- The per-entry block appended to `combined_text`:
`f"- {title}\n  摘要: {summary}...\n  链接: {link}\n\n"`. -/
def entryBlock (e : Entry) : String :=
  "- " ++ entryTitle e ++ "\n  摘要: " ++ entrySummary e ++ "...\n  链接: " ++ entryLink e ++ "\n\n"

/-- The inner loop of `fetch_rss_data` over `feed.entries[:max_items]`. -/
def feedText (feed : Feed) (maxItems : Nat) : String :=
  (feed.entries.take maxItems).foldl (fun acc e => acc ++ entryBlock e) ""

/-- `fetch_rss_data(urls, max_items=3)`.  `parse` stands for
`feedparser.parse` together with everything inside the `try` body: a
`.error` outcome is a URL whose fetch/parse raised, which the `except`
arm turns into a log line and a skip (the accumulator is unchanged). -/
def fetch_rss_data (parse : String → Except String Feed) (urls : List String)
    (maxItems : Nat := 3) : String :=
  urls.foldl (fun acc url =>
    match parse url with
    | .ok feed => acc ++ feedText feed maxItems
    | .error _ => acc) ""

/-- One element of the HF daily-papers JSON array: `title`, `summary`,
and the nested `paper.id` identifier, each possibly absent. -/
structure Paper where
  title : Option String
  summary : Option String
  paperId : Option String

/-- The per-paper block of `fetch_hf_daily_papers`:
title defaults to `'No Title'`, summary defaults to `'No summary'` and is
cut to 250 characters with newlines collapsed to spaces, and the link is
built from the nested id when truthy, else `"No Link"`. -/
def paperBlock (p : Paper) : String :=
  let title := p.title.getD "No Title"
  let summary := ((p.summary.getD "No summary").take 250).replace "\n" " "
  let pid := p.paperId.getD ""
  let link := if pid == "" then "No Link" else "https://huggingface.co/papers/" ++ pid
  "题目: " ++ title ++ "\n链接: " ++ link ++ "\n摘要: " ++ summary ++ "...\n\n"

/-- The fixed section header prepended by `fetch_hf_daily_papers`. -/
def hfHeader : String := "--- Hugging Face Daily Papers ---\n"

/-- The request timeout passed to `requests.get`. -/
def hfRequestTimeout : Nat := 10

/-- `fetch_hf_daily_papers()`.  `resp` stands for the outcome of the one
`requests.get(HF_DAILY_PAPERS_API, timeout=10)` call: `.error` is any
raised network/timeout/parse exception (carrying its message), `.ok` is
a completed response with status code and decoded JSON array.  The
second component counts HTTP GET requests issued. -/
def fetch_hf_daily_papers (resp : Except String (Nat × List Paper)) : String × Nat :=
  match resp with
  | .error e => ("获取 Hugging Face 数据时出错: " ++ e, 1)
  | .ok (status, data) =>
    if status == 200 then
      ((data.take 5).foldl (fun acc p => acc ++ paperBlock p) hfHeader, 1)
    else
      ("无法获取 HF 数据。", 1)

/-- The per-category truncation applied when the three text blocks are
embedded in the prompt: `text[:4000]`, a plain prefix cut. -/
def aggregate (s : String) : String := s.take 4000

/-- The prompt assembled by `analyze_with_deepseek_r1`, with each
category block truncated by `aggregate` exactly where the source
interpolates `text[:4000]`. -/
def buildPrompt (techText financeText paperText : String) : String :=
  "\n    你是一位拥有华尔街背景的资深科技分析师。请阅读以下今日的原始资讯，为我撰写一份【深度晨报】。\n\n    【原始资讯】\n    === 科技动态 ===\n    " ++
  aggregate techText ++
  " \n    === 金融市场 ===\n    " ++
  aggregate financeText ++
  "\n    === 学术前沿 ===\n    " ++
  aggregate paperText ++
  "\n\n    【撰写要求】\n    1. **深度分析**：不要只是罗列新闻。我需要你分析新闻背后的趋势、对行业的影响，以及不同事件之间的联系。\n    2. **结构清晰**：必须使用 Markdown 格式。\n       - 使用 `##` 分割板块。\n       - 使用 `**加粗**` 强调核心观点。\n       - 使用 `> 引用` 标记你的独家评论。\n    3. **板块安排**：\n       - 📊 **市场脉搏** (Market Pulse): 重点关注大公司股价波动背后的逻辑。\n       - 🤖 **AI 与科技前沿** (Tech & AI): 36氪、The Verge 等媒体的头条，以及 AI 新技术。\n       - 📝 **论文精选** (Paper Watch): 用通俗易懂的语言介绍 1-2 篇最有价值的论文，并说明为什么它重要。\n       - 💡 **每日洞察** (Daily Insight): 最后一段，给出你对今天整体局势的独家判断。\n\n    4. **语气**：专业、客观、犀利。\n    "

/-- `analyze_with_deepseek_r1(tech_text, finance_text, paper_text)`.
`backend` stands for the one `client.chat.completions.create` call on
the assembled prompt; `apiKey` is `DEEPSEEK_API_KEY`.  The function
returns the completion (`None` on missing key or on a raised backend
exception, exactly as the source returns `None` on both paths) paired
with the number of backend requests issued. -/
def analyze_with_deepseek_r1 (backend : String → Except String String)
    (apiKey : Option String) (techText financeText paperText : String) :
    Option String × Nat :=
  if pyFalsy apiKey then (none, 0)
  else
    match backend (buildPrompt techText financeText paperText) with
    | .ok content => (some content, 1)
    | .error _ => (none, 1)

/-- The fixed plain-text fallback body set by `msg.set_content`. -/
def fallbackNotice : String := "您的邮箱不支持 HTML 格式，请使用支持 HTML 的客户端查看。"

/-- The HTML template up to the interpolated `{html_body}` (literal
braces of the CSS written as escapes). -/
def htmlTemplateBefore : String :=
  "\n    <html>\n    <head>\n        <style>\n            body \x7b font-family: \x27Helvetica Neue\x27, Helvetica, Arial, sans-serif; line-height: 1.6; color: #333; max-width: 800px; margin: 0 auto; padding: 20px; \x7d\n            h2 \x7b color: #2c3e50; border-bottom: 2px solid #eee; padding-bottom: 10px; margin-top: 30px; \x7d\n            h3 \x7b color: #34495e; margin-top: 20px; \x7d\n            strong \x7b color: #e67e22; \x7d /* 重点文字用橙色 */\n            a \x7b color: #3498db; text-decoration: none; \x7d\n            blockquote \x7b border-left: 4px solid #bdc3c7; padding-left: 15px; color: #7f8c8d; font-style: italic; background-color: #f9f9f9; padding: 10px; \x7d\n            ul \x7b padding-left: 20px; \x7d\n            li \x7b margin-bottom: 8px; \x7d\n            .footer \x7b margin-top: 40px; font-size: 12px; color: #999; text-align: center; border-top: 1px solid #eee; padding-top: 20px; \x7d\n        </style>\n    </head>\n    <body>\n        "

/-- The template between `{html_body}` and the interpolated footer
timestamp `{datetime.now().strftime(...)}`. -/
def htmlTemplateBetween : String :=
  "\n        <div class=\"footer\">\n            Generated by DeepSeek-R1 Agent · "

/-- The template after the footer timestamp. -/
def htmlTemplateAfter : String :=
  "\n        </div>\n    </body>\n    </html>\n    "

/-- The full `html_content` f-string: template, converted body, footer
with generation timestamp. -/
def buildHtmlContent (htmlBody timestamp : String) : String :=
  htmlTemplateBefore ++ (htmlBody ++ (htmlTemplateBetween ++ (timestamp ++ htmlTemplateAfter)))

/-- The `EmailMessage` assembled by `send_html_email`: headers, the
plain-text body set by `set_content`, and the HTML alternative part
added by `add_alternative`. -/
structure EmailMsg where
  subject : String
  sender : String
  receiver : String
  plainBody : String
  htmlAlt : Option String

/-- Message construction inside `send_html_email`: `md` stands for
`markdown.markdown`, `timestamp` for the formatted `datetime.now()`.
The plain part is the fixed fallback notice; the HTML alternative is
the converted report wrapped in the styling template. -/
def buildEmailMessage (md : String → String) (sender receiver subject markdownContent timestamp : String) : EmailMsg :=
  { subject := subject
    sender := sender
    receiver := receiver
    plainBody := fallbackNotice
    htmlAlt := some (buildHtmlContent (md markdownContent) timestamp) }

/-- The submission-host choice on line 181:
`"smtp.qq.com" if "qq.com" in EMAIL_SENDER or "foxmail.com" in EMAIL_SENDER else "smtp.gmail.com"`. -/
def selectSmtpServer (sender : String) : String :=
  if strIn "qq.com" sender || strIn "foxmail.com" sender then "smtp.qq.com" else "smtp.gmail.com"

/-- Observable outcome of `send_html_email` (the source signals these by
printed diagnostics and early return). -/
inductive MailOutcome where
  | missingConfig
  | sent
  | sendFailed (msg : String)
deriving DecidableEq

/-- `send_html_email(subject, markdown_content)`.  `sender`, `password`,
`receiver` are the three environment values; `smtp` stands for the whole
SMTP session (connect, login, send) with `.error` any raised exception.
The second component counts connections opened to a submission host:
the guard returns before any connection is attempted. -/
def send_html_email (md : String → String) (sender password receiver : Option String)
    (smtp : Except String Unit) (subject markdownContent timestamp : String) :
    MailOutcome × Nat :=
  if pyFalsy sender || pyFalsy password || pyFalsy receiver then (.missingConfig, 0)
  else
    let _msg := buildEmailMessage md (sender.getD "") (receiver.getD "") subject markdownContent timestamp
    match smtp with
    | .ok _ => (.sent, 1)
    | .error e => (.sendFailed ("邮件发送失败: " ++ e), 1)

/-- Outcome of `main()`: `completed` reaches the send step, `aborted` is
the `分析失败，未发送邮件` path. -/
inductive RunOutcome where
  | completed
  | aborted
deriving DecidableEq

/-- The tail of `main()`: run the analysis, then
`if briefing_content: send_html_email(...)` (Python truthiness: `None`
and the empty string both skip the send).  The second component counts
invocations of `send_html_email`. -/
def mainRun (backend : String → Except String String) (apiKey : Option String)
    (techData financeData paperData : String) : RunOutcome × Nat :=
  match (analyze_with_deepseek_r1 backend apiKey techData financeData paperData).1 with
  | some briefing => if briefing == "" then (.aborted, 0) else (.completed, 1)
  | none => (.aborted, 0)


theorem join_cons (s : String) (l : List String) :
    String.join (s :: l) = s ++ String.join l := by
  apply String.ext
  simp

theorem foldl_append_eq_join {α : Type} (f : α → String) (l : List α) (acc : String) :
    l.foldl (fun a x => a ++ f x) acc = acc ++ String.join (l.map f) := by
  induction l generalizing acc with
  | nil => simp [String.join]
  | cons x xs ih =>
    simp only [List.foldl_cons, List.map_cons, join_cons, ih, String.append_assoc]

theorem isPrefixOf_true_iff (n h : List Char) :
    n.isPrefixOf h = true ↔ ∃ t, h = n ++ t := by
  induction n generalizing h with
  | nil => simp
  | cons a as ih =>
    cases h with
    | nil => simp
    | cons b bs =>
      simp only [List.isPrefixOf, Bool.and_eq_true, beq_iff_eq, ih, List.cons_append,
        List.cons.injEq]
      constructor
      · rintro ⟨rfl, t, rfl⟩; exact ⟨t, rfl, rfl⟩
      · rintro ⟨t, rfl, rfl⟩; exact ⟨rfl, t, rfl⟩

theorem containsSub_iff (n h : List Char) :
    containsSub n h = true ↔ ∃ a b, h = a ++ n ++ b := by
  induction h with
  | nil =>
    simp only [containsSub, List.isEmpty_iff]
    constructor
    · rintro rfl; exact ⟨[], [], rfl⟩
    · rintro ⟨a, b, hab⟩
      rcases List.append_eq_nil.mp (List.append_eq_nil.mp hab.symm).1 with ⟨-, h2⟩
      exact h2
  | cons c t ih =>
    simp only [containsSub, Bool.or_eq_true, ih, isPrefixOf_true_iff]
    constructor
    · rintro (⟨tl, htl⟩ | ⟨a, b, rfl⟩)
      · exact ⟨[], tl, by simpa using htl⟩
      · exact ⟨c :: a, b, rfl⟩
    · rintro ⟨a, b, hab⟩
      cases a with
      | nil => exact Or.inl ⟨b, by simpa using hab⟩
      | cons a0 a' =>
        rcases List.cons.injEq .. ▸ hab with h
        refine Or.inr ⟨a', b, ?_⟩
        simpa using (List.cons_eq_cons.mp (by simpa using hab)).2


/-- C1: the spec claims a domain-suffix lookup sending two providers to
two hosts with a third distinct default; on the code the fallback for a
non-provider sender such as `user@example.org` is `smtp.gmail.com`, the
very host the Gmail provider gets, so no third distinct default host
exists. -/
theorem c1_host_selection_counterexample :
    selectSmtpServer "user@example.org" = "smtp.gmail.com" ∧
    selectSmtpServer "user@gmail.com" = "smtp.gmail.com" ∧
    ¬ selectSmtpServer "user@example.org" ≠ selectSmtpServer "user@gmail.com" := by
  refine ⟨by decide, by decide, by decide⟩

/-- C1 (amended): the Mailer selects the submission host from the sender
address by substring containment, mapping the two known providers
(`qq.com`, `foxmail.com`) to the single QQ host, with any other sender,
`user@gmail.com` and `user@example.org` included, selecting the Gmail
host, which doubles as the default — only two hosts are ever selected. -/
theorem c1_host_selection_amended :
    selectSmtpServer "user@qq.com" = "smtp.qq.com" ∧
    selectSmtpServer "user@foxmail.com" = "smtp.qq.com" ∧
    selectSmtpServer "user@gmail.com" = "smtp.gmail.com" ∧
    selectSmtpServer "user@example.org" = "smtp.gmail.com" ∧
    ∀ s : String, selectSmtpServer s = "smtp.qq.com" ∨ selectSmtpServer s = "smtp.gmail.com" := by
  refine ⟨by decide, by decide, by decide, by decide, ?_⟩
  intro s
  unfold selectSmtpServer
  by_cases h : (strIn "qq.com" s || strIn "foxmail.com" s) = true
  · simp [h]
  · simp [h]

/-- C10: host selection tests substring containment over the whole
sender string — the QQ host is selected exactly when `qq.com` or
`foxmail.com` occurs anywhere in the sender (so `user@myqq.com.example.org`
gets the QQ host), and every other sender gets the Gmail host. -/
theorem c10_substring_containment (s : String) :
    (selectSmtpServer s = "smtp.qq.com" ↔
      (∃ a b, s.data = a ++ "qq.com".data ++ b) ∨
      (∃ a b, s.data = a ++ "foxmail.com".data ++ b)) ∧
    (selectSmtpServer s = "smtp.gmail.com" ↔
      ¬ ((∃ a b, s.data = a ++ "qq.com".data ++ b) ∨
         (∃ a b, s.data = a ++ "foxmail.com".data ++ b))) ∧
    selectSmtpServer "user@myqq.com.example.org" = "smtp.qq.com" := by
  refine ⟨?_, ?_, by decide⟩ <;>
  · unfold selectSmtpServer strIn
    rw [← containsSub_iff "qq.com".data s.data, ← containsSub_iff "foxmail.com".data s.data]
    cases hq : containsSub "qq.com".data s.data <;>
      cases hf : containsSub "foxmail.com".data s.data <;> decide

/-- C10 witness: the sender containing `qq.com` in the middle of a
larger non-QQ domain is routed to the QQ host. -/
theorem c10_substring_containment_witness :
    selectSmtpServer "user@myqq.com.example.org" = "smtp.qq.com" :=
  (c10_substring_containment "x").2.2

/-- C6: the per-category truncation `text[:4000]` used when building the
prompt is an idempotent prefix cut: applying it twice equals applying it
once, the result is a prefix of the input, and its length never exceeds
the 4000-character budget. -/
theorem c6_aggregate_idempotent (x : String) :
    aggregate (aggregate x) = aggregate x ∧
    (∃ t, (aggregate x).data ++ t = x.data) ∧
    (aggregate x).length ≤ 4000 := by
  refine ⟨?_, ⟨x.data.drop 4000, ?_⟩, ?_⟩
  · apply String.ext
    simp [aggregate, List.take_take]
  · simp [aggregate, List.take_append_drop]
  · rw [aggregate, String.take_eq]
    show (x.data.take 4000).length ≤ 4000
    simp [List.length_take]


/-- C2: when the backend call on the assembled prompt fails, the
analysis returns `none` (the failure signal) and the run aborts with
zero invocations of `send_html_email` — no email is sent and no partial
report is delivered. -/
theorem c2_backend_failure_aborts (backend : String → Except String String)
    (apiKey : Option String) (techData financeData paperData e : String)
    (h : backend (buildPrompt techData financeData paperData) = .error e) :
    (analyze_with_deepseek_r1 backend apiKey techData financeData paperData).1 = none ∧
    mainRun backend apiKey techData financeData paperData = (.aborted, 0) := by
  have ha : (analyze_with_deepseek_r1 backend apiKey techData financeData paperData).1 = none := by
    unfold analyze_with_deepseek_r1
    by_cases hk : pyFalsy apiKey = true <;> simp [hk, h]
  refine ⟨ha, ?_⟩
  unfold mainRun
  rw [ha]

/-- C2 witness: a concrete run whose backend call raises aborts without
invoking the mailer. -/
theorem c2_backend_failure_aborts_witness :
    (analyze_with_deepseek_r1 (fun _ => .error "boom") (some "key") "t" "f" "p").1 = none ∧
    mainRun (fun _ => .error "boom") (some "key") "t" "f" "p" = (.aborted, 0) :=
  c2_backend_failure_aborts (fun _ => .error "boom") (some "key") "t" "f" "p" "boom" rfl

/-- C3: with the API credential absent (unset or empty), the analysis
returns the failure signal `none` and issues zero backend requests. -/
theorem c3_missing_credential_no_call (backend : String → Except String String)
    (apiKey : Option String) (techData financeData paperData : String)
    (h : pyFalsy apiKey = true) :
    analyze_with_deepseek_r1 backend apiKey techData financeData paperData = (none, 0) := by
  unfold analyze_with_deepseek_r1
  simp [h]

/-- C3 witness: an unset credential yields the failure signal and a
backend call count of zero even for a backend that would succeed. -/
theorem c3_missing_credential_no_call_witness :
    analyze_with_deepseek_r1 (fun _ => .ok "report") none "t" "f" "p" = (none, 0) :=
  c3_missing_credential_no_call (fun _ => .ok "report") none "t" "f" "p" (by decide)


/-- C4: `fetch_rss_data` is total over arbitrary per-URL outcomes — its
result is the concatenation, in URL-list order, of the blocks of the
successfully parsed sources only (a failed URL contributes nothing and
the loop continues), and when every source fails it returns the empty
string rather than an error. -/
theorem c4_single_source_isolation (parse : String → Except String Feed)
    (urls : List String) (n : Nat) :
    fetch_rss_data parse urls n =
      String.join (urls.map (fun u =>
        match parse u with
        | .ok feed => feedText feed n
        | .error _ => "")) ∧
    ((∀ u ∈ urls, ∃ e, parse u = .error e) → fetch_rss_data parse urls n = "") := by
  have key : ∀ (us : List String) (acc : String),
      us.foldl (fun acc url =>
        match parse url with
        | .ok feed => acc ++ feedText feed n
        | .error _ => acc) acc =
      acc ++ String.join (us.map (fun u =>
        match parse u with
        | .ok feed => feedText feed n
        | .error _ => "")) := by
    intro us
    induction us with
    | nil => intro acc; simp [String.join]
    | cons u us ih =>
      intro acc
      simp only [List.foldl_cons, List.map_cons, join_cons]
      cases hu : parse u with
      | ok feed => rw [ih, String.append_assoc]
      | error e => rw [ih, ← String.append_assoc, String.append_empty]
  constructor
  · exact key urls ""
  · intro hall
    rw [fetch_rss_data, key urls "", String.empty_append]
    have : urls.map (fun u =>
        match parse u with
        | .ok feed => feedText feed n
        | .error _ => "") = urls.map (fun _ => "") := by
      apply List.map_congr_left
      intro u hu
      rcases hall u hu with ⟨e, he⟩
      rw [he]
    rw [this]
    apply String.ext
    simp

/-- C4 witness: with both sources unreachable, the fetch returns the
empty string, and in general the result covers only parsed sources. -/
theorem c4_single_source_isolation_witness :
    fetch_rss_data (fun u => .error ("down " ++ u)) ["http://a", "http://b"] 3 = "" :=
  (c4_single_source_isolation (fun u => .error ("down " ++ u)) ["http://a", "http://b"] 3).2
    (fun u _ => ⟨"down " ++ u, rfl⟩)


/-- C5: a successfully parsed feed is serialized as the blocks of at
most `maxItems` entries taken in the feed's native order (no
re-sorting); per entry, a missing title defaults to `"No Title"`, a
missing link defaults to the empty string, and the summary is the
200-character prefix cut with the wrapper tags `<p>` and `</p>`
stripped. -/
theorem c5_feed_serialization (feed : Feed) (maxItems : Nat) (e : Entry) (s : String) :
    feedText feed maxItems = String.join ((feed.entries.take maxItems).map entryBlock) ∧
    (feed.entries.take maxItems).length ≤ maxItems ∧
    (e.title = none → entryTitle e = "No Title") ∧
    (e.link = none → entryLink e = "") ∧
    (e.summary = some s →
      entrySummary e = ((s.take 200).replace "<p>" "").replace "</p>" "") := by
  refine ⟨?_, ?_, ?_, ?_, ?_⟩
  · rw [feedText, foldl_append_eq_join, String.empty_append]
  · simp [List.length_take]
  · intro h; simp [entryTitle, h]
  · intro h; simp [entryLink, h]
  · intro h; simp [entrySummary, h]

/-- C5 witness: defaults and the summary transformation evaluated on a
concrete entry with no title and no link. -/
theorem c5_feed_serialization_witness :
    entryTitle ⟨none, some "<p>hello</p>", none⟩ = "No Title" ∧
    entryLink ⟨none, some "<p>hello</p>", none⟩ = "" ∧
    entrySummary ⟨none, some "<p>hello</p>", none⟩ =
      (("<p>hello</p>".take 200).replace "<p>" "").replace "</p>" "" :=
  ⟨(c5_feed_serialization ⟨none, []⟩ 0 ⟨none, some "<p>hello</p>", none⟩ "<p>hello</p>").2.2.1 rfl,
   (c5_feed_serialization ⟨none, []⟩ 0 ⟨none, some "<p>hello</p>", none⟩ "<p>hello</p>").2.2.2.1 rfl,
   (c5_feed_serialization ⟨none, []⟩ 0 ⟨none, some "<p>hello</p>", none⟩ "<p>hello</p>").2.2.2.2 rfl⟩

/-- C8: the papers fetch issues exactly one HTTP GET whatever the
outcome; a raised error or a non-200 status yields a descriptive
placeholder string instead of an exception, and a 200 response is
serialized as the header followed by the blocks of at most the first
five array elements in response order. -/
theorem c8_hf_papers_degradation (e : String) (status : Nat) (data : List Paper) :
    (∀ resp : Except String (Nat × List Paper), (fetch_hf_daily_papers resp).2 = 1) ∧
    fetch_hf_daily_papers (.error e) = ("获取 Hugging Face 数据时出错: " ++ e, 1) ∧
    (status ≠ 200 → fetch_hf_daily_papers (.ok (status, data)) = ("无法获取 HF 数据。", 1)) ∧
    fetch_hf_daily_papers (.ok (200, data)) =
      (hfHeader ++ String.join ((data.take 5).map paperBlock), 1) ∧
    (data.take 5).length ≤ 5 := by
  refine ⟨?_, rfl, ?_, ?_, ?_⟩
  · intro resp
    rcases resp with e | ⟨status, data⟩
    · rfl
    · unfold fetch_hf_daily_papers
      by_cases h : (status == 200) = true <;> simp [h]
  · intro h
    unfold fetch_hf_daily_papers
    simp [h]
  · simp [fetch_hf_daily_papers, foldl_append_eq_join]
  · simp [List.length_take]

/-- C8 witness: a 404 response degrades to the fixed placeholder with
exactly one request issued. -/
theorem c8_hf_papers_degradation_witness :
    fetch_hf_daily_papers (.ok (404, [])) = ("无法获取 HF 数据。", 1) :=
  (c8_hf_papers_degradation "x" 404 []).2.2.1 (by decide)


/-- C7: with the sender, password, or recipient absent (unset or
empty), `send_html_email` refuses immediately with the missing-config
outcome and opens zero connections to any submission host. -/
theorem c7_missing_config_no_connection (md : String → String)
    (sender password receiver : Option String) (smtp : Except String Unit)
    (subject markdownContent timestamp : String)
    (h : pyFalsy sender = true ∨ pyFalsy password = true ∨ pyFalsy receiver = true) :
    send_html_email md sender password receiver smtp subject markdownContent timestamp =
      (.missingConfig, 0) := by
  unfold send_html_email
  rcases h with h | h | h <;> simp [h]

/-- C7 witness: a missing recipient aborts delivery before any
connection is opened, even with a healthy SMTP session available. -/
theorem c7_missing_config_no_connection_witness :
    send_html_email (fun s => s) (some "a@qq.com") (some "pw") none (.ok ()) "subj" "body" "ts" =
      (.missingConfig, 0) :=
  c7_missing_config_no_connection (fun s => s) (some "a@qq.com") (some "pw") none (.ok ())
    "subj" "body" "ts" (Or.inr (Or.inr (by decide)))

/-- C9: in HTML mode the message's plain-text part is the fixed
fallback notice for clients that cannot render HTML, and its HTML
alternative part is present and equal to the Markdown-converted report
wrapped in the styling template, which contains the converted report
and the footer generation timestamp as substrings. -/
theorem c9_html_message_parts (md : String → String)
    (sender receiver subject report timestamp : String) :
    (buildEmailMessage md sender receiver subject report timestamp).plainBody = fallbackNotice ∧
    (buildEmailMessage md sender receiver subject report timestamp).htmlAlt =
      some (buildHtmlContent (md report) timestamp) ∧
    (∃ a b, buildHtmlContent (md report) timestamp = a ++ (md report ++ b)) ∧
    (∃ a b, buildHtmlContent (md report) timestamp = a ++ (timestamp ++ b)) ∧
    (buildEmailMessage md sender receiver subject report timestamp).htmlAlt.isSome = true := by
  refine ⟨rfl, rfl, ?_, ?_, rfl⟩
  · exact ⟨htmlTemplateBefore, htmlTemplateBetween ++ (timestamp ++ htmlTemplateAfter), rfl⟩
  · refine ⟨htmlTemplateBefore ++ (md report ++ htmlTemplateBetween), htmlTemplateAfter, ?_⟩
    simp [buildHtmlContent, String.append_assoc]

end DailyBriefing
